import Mathlib

/-!
Verification development for the identity-mapping resolution engine
(idmapd `dbutils.c`): windows SID ⇄ unix id resolution, name-based
mapping rules, caching with TTLs, and the ephemeral id allocator.

The C source is embedded shallowly: pure helper functions become Lean
functions, SQL queries over the two sqlite stores become list filters
and first-match selection over row structures, the per-request mutable
`idmap_mapping` / `idmap_id_res` records become explicit state threaded
through the pass functions, and external collaborators (the unix name
service, the AD directory client, the id-space authority behind
`allocids`) become function parameters.
-/

namespace Idmap

/-- Return codes (`idmap_retcode`). Only the kinds this file needs. -/
inductive Retcode
  | success
  | nextRc
  | notfound
  | nomapping
  | internalErr
  | memoryErr
  | cacheErr
  | notuser
  | notgroup
  | notsupported
  | sidinvalid
  | w2uNamerule
  | u2wNamerule
  | retriableNetErr
  | cfgErr
  | domainNotfound
  deriving DecidableEq, Repr

/-- Identity types (`idmap_id_type`), as used by the resolution paths. -/
inductive IdType
  | uid
  | gid
  | posixid
  | sidT
  | noneT
  deriving DecidableEq, Repr

/-- IDMAP_DIRECTION_BI -/
def DIR_BI : Int := 0

/-- IDMAP_DIRECTION_W2U -/
def DIR_W2U : Int := 1

/-- IDMAP_DIRECTION_U2W -/
def DIR_U2W : Int := 2

/-- IDMAP_DIRECTION_UNDEF -/
def DIR_UNDEF : Int := -1

/-- INT32_MAX -/
def INT32_MAX : Nat := 2147483647

/-- IS_EPHEMERAL(pid): `pid > INT32_MAX`. -/
def IS_EPHEMERAL (pid : Nat) : Bool := INT32_MAX < pid

/-- LOCALRID_MIN -/
def LOCALRID_MIN : Nat := 1000

/-- Modelled from the spec: `SENTINEL_PID` (the "unmapped" marker in the
well-known table and the sentinel result id) comes from a header not in
the sources; it is `(uid_t)-1 = UINT32_MAX`. -/
def SENTINEL_PID : Nat := 4294967295

/-- Modelled from the spec: `UID_NOBODY`/`GID_NOBODY` come from system
headers not in the sources (the classic value 60001). -/
def UID_NOBODY : Nat := 60001

/-- Modelled from the spec: `GID_NOBODY`, see `UID_NOBODY`. -/
def GID_NOBODY : Nat := 60001

/-- Modelled from the spec: the fixed ids of the mapped well-known
identities (`IDMAP_WK_*`) come from headers not in the sources; their
exact values are irrelevant to the claims, which only need them distinct
from the concrete test inputs used below. -/
def IDMAP_WK_CREATOR_OWNER_UID : Nat := 2147483648

/-- Modelled from the spec: see `IDMAP_WK_CREATOR_OWNER_UID`. -/
def IDMAP_WK_CREATOR_GROUP_GID : Nat := 2147483648

/-- Modelled from the spec: see `IDMAP_WK_CREATOR_OWNER_UID`. -/
def IDMAP_WK_LOCAL_SYSTEM_GID : Nat := 2147483649

/-- Internal name-type tags `_IDMAP_T_USER` / `_IDMAP_T_GROUP`; only
their distinctness matters, they never leave the engine. -/
def T_USER : Int := 1

/-- Internal name-type tag for groups, see `T_USER`. -/
def T_GROUP : Int := 2

/-- Request-state bit `_IDMAP_F_DONE` (the empty bitmask). -/
def F_DONE : Nat := 0

/-- Request-state bit `_IDMAP_F_S2N_CACHE` (name came from local data). -/
def F_S2N_CACHE : Nat := 1

/-- Request-state bit `_IDMAP_F_S2N_AD` (name must come from AD). -/
def F_S2N_AD : Nat := 2

/-- Request-state bit `_IDMAP_F_EXP_EPH_UID` (expired ephemeral uid
stashed in the result). -/
def F_EXP_EPH_UID : Nat := 4

/-- Request-state bit `_IDMAP_F_EXP_EPH_GID` (expired ephemeral gid
stashed in the result). -/
def F_EXP_EPH_GID : Nat := 8

/-- Test of a bit in the request-state mask (`req->direction & f`). -/
def hasFlag (mask f : Nat) : Bool := mask.land f ≠ 0

/-- Modelled from the spec: `idmap_stat4prot` (not among the sources)
converts an engine status to the protocol status attached to a result;
resource-exhaustion internals are folded into InternalStoreError and
every status the claims mention passes through unchanged. -/
def idmap_stat4prot (s : Retcode) : Retcode :=
  match s with
  | .memoryErr => .internalErr
  | .cacheErr => .internalErr
  | s => s

/-- EMPTY_NAME(name): the name is `""` or the two-character string `""`
written with literal double quotes. -/
def EMPTY_NAME (s : String) : Bool := s == "" || s == "\"\""

/-- The `*name == '*'` test used throughout rule classification: only
the first character is inspected (code point 42 is the asterisk). -/
def isWild (s : String) : Bool :=
  match s.data with
  | c :: _ => c.toNat == 42
  | [] => false

/-- The `windomain && *windomain == '*'` test on a nullable domain. -/
def domWild (wd : Option String) : Bool :=
  match wd with
  | some d => isWild d
  | none => false

/-- get_namerule_order: computes the windows→unix and unix→windows
priority of a rule, or rejects it as malformed. Returns the retcode
together with the (w2u_order, u2w_order) out-parameters, which are
initialised to 0 and keep whatever was assigned before an error
return, exactly as in the C. -/
def get_namerule_order (winname windomain unixname : Option String)
    (direction : Int) : Retcode × Nat × Nat :=
  let w2uPart : Retcode × Nat :=
    if direction ≠ DIR_U2W then
      match winname, unixname with
      | none, _ => (.w2uNamerule, 0)
      | some _, none => (.w2uNamerule, 0)
      | some wn, some un =>
        if EMPTY_NAME wn then (.w2uNamerule, 0)
        else if isWild wn && domWild windomain then
          (.success, if isWild un then 8 else if EMPTY_NAME un then 9 else 10)
        else if isWild wn then
          (.success, if isWild un then 5 else if EMPTY_NAME un then 6 else 7)
        else if domWild windomain then
          if isWild un then (.w2uNamerule, 0)
          else (.success, if EMPTY_NAME un then 3 else 4)
        else
          if isWild un then (.w2uNamerule, 0)
          else (.success, if EMPTY_NAME un then 1 else 2)
    else (.success, 0)
  match w2uPart with
  | (.success, w2u) =>
    if direction ≠ DIR_W2U then
      match unixname with
      | none => (.u2wNamerule, w2u, 0)
      | some un =>
        if EMPTY_NAME un then (.u2wNamerule, w2u, 0)
        else
          match winname with
          | none => (.u2wNamerule, w2u, 0)
          | some wn =>
            if domWild windomain then (.u2wNamerule, w2u, 0)
            else if isWild un then
              (.success, w2u,
                if isWild wn then 3 else if EMPTY_NAME wn then 4 else 5)
            else
              if isWild wn then (.u2wNamerule, w2u, 0)
              else (.success, w2u, if EMPTY_NAME wn then 1 else 2)
    else (.success, w2u, 0)
  | (e, w2u) => (e, w2u, 0)

/-- Classification of a name pattern: wildcard, explicit deny (empty),
or a literal name. -/
inductive NClass
  | star
  | deny
  | lit
  deriving DecidableEq, Repr

/-- Classify a name string. The wildcard and empty classes are disjoint
(a string starting with `*` is never EMPTY_NAME), so the order of the
two tests is immaterial. -/
def nclass (s : String) : NClass :=
  if isWild s then .star else if EMPTY_NAME s then .deny else .lit

/-- The windows→unix rejected combinations exactly as the specification
lists them: winname empty, or windomain `*` with a non-wildcard winname
and unixname `*`. -/
def specListedRejectedW2U (wn : String) (wd : Option String)
    (un : String) : Bool :=
  EMPTY_NAME wn || (wd == some "*" && !isWild wn && un == "*")

/-- The unix→windows rejected combinations exactly as the specification
lists them: unixname empty, or a `*` windomain with a specific (literal)
unixname. -/
def specListedRejectedU2W (wd : Option String) (un : String) : Bool :=
  EMPTY_NAME un || (wd == some "*" && nclass un == .lit)

/-- The windows→unix priority table of the specification, extended with
the full rejected set the code enforces: a non-wildcard winname mapping
to unixname `*` is rejected for every domain, not only for a `*`
domain. `none` means the combination is rejected. -/
def amendedW2UOrder (wn : NClass) (dw : Bool) (un : NClass) : Option Nat :=
  match wn, dw, un with
  | .deny, _, _ => none
  | .star, true, .star => some 8
  | .star, true, .deny => some 9
  | .star, true, .lit => some 10
  | .star, false, .star => some 5
  | .star, false, .deny => some 6
  | .star, false, .lit => some 7
  | .lit, _, .star => none
  | .lit, true, .deny => some 3
  | .lit, true, .lit => some 4
  | .lit, false, .deny => some 1
  | .lit, false, .lit => some 2

/-- The unix→windows priority table of the specification, extended with
the full rejected set the code enforces: any rule with a `*` windomain
is rejected (with a wildcard unixname as well as a literal one), and a
literal unixname mapping to a wildcard winname is rejected. -/
def amendedU2WOrder (un : NClass) (dw : Bool) (wn : NClass) : Option Nat :=
  if dw then none
  else
    match un, wn with
    | .deny, _ => none
    | .star, .star => some 3
    | .star, .deny => some 4
    | .star, .lit => some 5
    | .lit, .star => none
    | .lit, .deny => some 1
    | .lit, .lit => some 2

/-- The amended rule-priority computation: the spec's two tables with
the enlarged rejected sets, evaluated per active direction exactly as
`get_namerule_order` sequences them (w2u first, then u2w). -/
def amended_namerule_order (winname windomain unixname : Option String)
    (direction : Int) : Retcode × Nat × Nat :=
  let w2uPart : Retcode × Nat :=
    if direction ≠ DIR_U2W then
      match winname, unixname with
      | none, _ => (.w2uNamerule, 0)
      | some _, none => (.w2uNamerule, 0)
      | some wn, some un =>
        match amendedW2UOrder (nclass wn) (domWild windomain) (nclass un) with
        | some k => (.success, k)
        | none => (.w2uNamerule, 0)
    else (.success, 0)
  match w2uPart with
  | (.success, w2u) =>
    if direction ≠ DIR_W2U then
      match winname, unixname with
      | _, none => (.u2wNamerule, w2u, 0)
      | none, some _ => (.u2wNamerule, w2u, 0)
      | some wn, some un =>
        match amendedU2WOrder (nclass un) (domWild windomain) (nclass wn) with
        | some k => (.success, w2u, k)
        | none => (.u2wNamerule, w2u, 0)
    else (.success, w2u, 0)
  | (e, w2u) => (e, w2u, 0)

/-- ASCII lower-casing of one code point, as the C locale's tolower. -/
def lowerCp (n : Nat) : Nat := if 65 ≤ n && n ≤ 90 then n + 32 else n

/-- strcasecmp(a, b) == 0 (the daemon runs in the C locale, so the
comparison is ASCII case folding). -/
def strcaseEq (a b : String) : Bool :=
  a.data.map (fun c => lowerCp c.toNat) == b.data.map (fun c => lowerCp c.toNat)

/-- A mapping request (`idmap_mapping`): the source identity (a SID
for sid2pid, a numeric id for pid2sid — the union members the two
directions use are kept as separate fields since no translated function
reads one as the other), optional known names, the requested target
type, the per-request flags, and the `direction` field that the passes
reuse as a state bitmask. -/
structure IdmapMapping where
  id1pfx : Option String
  id1rid : Nat
  id1pid : Nat
  id1idtype : IdType
  id1name : Option String
  id1domain : Option String
  id2idtype : IdType
  id2name : Option String
  id2domain : Option String
  flagNoNewAlloc : Bool
  flagNoNameservice : Bool
  dirMask : Nat
  deriving DecidableEq, Repr

/-- A request with every field empty, used as a base for record
updates in concrete scenarios. -/
def req0 : IdmapMapping :=
  { id1pfx := none, id1rid := 0, id1pid := 0, id1idtype := .noneT,
    id1name := none, id1domain := none, id2idtype := .noneT,
    id2name := none, id2domain := none, flagNoNewAlloc := false,
    flagNoNameservice := false, dirMask := 0 }

/-- A mapping result (`idmap_id_res`): the resolved id (numeric and SID
members of the union kept separately), the mapping direction and the
status code. -/
structure IdmapIdRes where
  idtype : IdType
  pid : Nat
  sidpfx : Option String
  sidrid : Nat
  dir : Int
  retcode : Retcode
  adTy : Int
  deriving DecidableEq, Repr

/-- A result with every field empty. The `adTy` field models the raw
integer the AD sid2name batch callback stores through
`(int *)&res->id.idtype`: for AD-resolved items the idtype storage
holds a name-type tag that pass 2 feeds to `verify_type`. -/
def res0 : IdmapIdRes :=
  { idtype := .noneT, pid := 0, sidpfx := none, sidrid := 0,
    dir := DIR_UNDEF, retcode := .success, adTy := 0 }

/-- One entry of the static well-known-SIDs table (`wksids_table_t`). -/
structure Wksid where
  pfx : String
  rid : Nat
  winname : String
  is_user : Nat
  pid : Nat
  direction : Int
  deriving DecidableEq, Repr

/-- The `wksids` table (the NULL terminator of the C array becomes the
end of the list). -/
def wksidsList : List Wksid :=
  [ { pfx := "S-1-1", rid := 0, winname := "Everyone", is_user := 0,
      pid := SENTINEL_PID, direction := -1 },
    { pfx := "S-1-3", rid := 0, winname := "Creator Owner", is_user := 1,
      pid := IDMAP_WK_CREATOR_OWNER_UID, direction := 0 },
    { pfx := "S-1-3", rid := 1, winname := "Creator Group", is_user := 0,
      pid := IDMAP_WK_CREATOR_GROUP_GID, direction := 0 },
    { pfx := "S-1-3", rid := 2, winname := "Creator Owner Server",
      is_user := 1, pid := SENTINEL_PID, direction := -1 },
    { pfx := "S-1-3", rid := 3, winname := "Creator Group Server",
      is_user := 0, pid := SENTINEL_PID, direction := -1 },
    { pfx := "S-1-5", rid := 1, winname := "Dialup", is_user := 0,
      pid := SENTINEL_PID, direction := -1 },
    { pfx := "S-1-5", rid := 2, winname := "Network", is_user := 0,
      pid := SENTINEL_PID, direction := -1 },
    { pfx := "S-1-5", rid := 3, winname := "Batch", is_user := 0,
      pid := SENTINEL_PID, direction := -1 },
    { pfx := "S-1-5", rid := 4, winname := "Interactive", is_user := 0,
      pid := SENTINEL_PID, direction := -1 },
    { pfx := "S-1-5", rid := 6, winname := "Service", is_user := 0,
      pid := SENTINEL_PID, direction := -1 },
    { pfx := "S-1-5", rid := 7, winname := "Anonymous Logon",
      is_user := 0, pid := GID_NOBODY, direction := 0 },
    { pfx := "S-1-5", rid := 8, winname := "Proxy", is_user := 0,
      pid := SENTINEL_PID, direction := -1 },
    { pfx := "S-1-5", rid := 9, winname := "Enterprise Domain Controllers",
      is_user := 0, pid := SENTINEL_PID, direction := -1 },
    { pfx := "S-1-5", rid := 10, winname := "Self", is_user := 0,
      pid := SENTINEL_PID, direction := -1 },
    { pfx := "S-1-5", rid := 11, winname := "Authenticated Users",
      is_user := 0, pid := SENTINEL_PID, direction := -1 },
    { pfx := "S-1-5", rid := 12, winname := "Restricted Code",
      is_user := 0, pid := SENTINEL_PID, direction := -1 },
    { pfx := "S-1-5", rid := 13, winname := "Terminal Server User",
      is_user := 0, pid := SENTINEL_PID, direction := -1 },
    { pfx := "S-1-5", rid := 14, winname := "Remote Interactive Logon",
      is_user := 0, pid := SENTINEL_PID, direction := -1 },
    { pfx := "S-1-5", rid := 15, winname := "This Organization",
      is_user := 0, pid := SENTINEL_PID, direction := -1 },
    { pfx := "S-1-5", rid := 18, winname := "Local System", is_user := 0,
      pid := IDMAP_WK_LOCAL_SYSTEM_GID, direction := 0 },
    { pfx := "S-1-5", rid := 19, winname := "Local Service", is_user := 0,
      pid := SENTINEL_PID, direction := -1 },
    { pfx := "S-1-5", rid := 20, winname := "Network Service",
      is_user := 0, pid := SENTINEL_PID, direction := -1 },
    { pfx := "S-1-5", rid := 1000, winname := "Other Organization",
      is_user := 0, pid := SENTINEL_PID, direction := -1 },
    { pfx := "S-1-5-64", rid := 21, winname := "Digest Authentication",
      is_user := 0, pid := SENTINEL_PID, direction := -1 },
    { pfx := "S-1-5-64", rid := 10, winname := "NTLM Authentication",
      is_user := 0, pid := SENTINEL_PID, direction := -1 },
    { pfx := "S-1-5-64", rid := 14, winname := "SChannel Authentication",
      is_user := 0, pid := SENTINEL_PID, direction := -1 } ]

/-- The scan loop of `lookup_wksids_sid2pid`: first entry matching
(rid, case-insensitive sidprefix); a match with the sentinel pid breaks
out of the loop (not found), a match restricted to the U2W direction or
of the wrong user/group kind continues the scan. -/
def wksidScanS2P (p : String) (r : Nat) (idt : IdType)
    (res : IdmapIdRes) : List Wksid → Retcode × IdmapIdRes
  | [] => (.notfound, res)
  | e :: rest =>
    if e.rid == r && strcaseEq e.pfx p then
      if e.pid == SENTINEL_PID then (.notfound, res)
      else if e.direction == DIR_U2W then wksidScanS2P p r idt res rest
      else
        match idt with
        | .uid =>
          if e.is_user == 0 then wksidScanS2P p r idt res rest
          else (.success, { res with pid := e.pid, dir := e.direction })
        | .gid =>
          if e.is_user == 1 then wksidScanS2P p r idt res rest
          else (.success, { res with pid := e.pid, dir := e.direction })
        | .posixid =>
          (.success,
            { res with
                pid := e.pid
                idtype := if e.is_user == 0 then .gid else .uid
                dir := e.direction })
        | _ => (.notsupported, res)
    else wksidScanS2P p r idt res rest

/-- lookup_wksids_sid2pid: map a request SID through the well-known
table. The request SID prefix is non-null on every path that reaches
this function (checked by the caller); a missing prefix cannot match. -/
def lookup_wksids_sid2pid (req : IdmapMapping) (res : IdmapIdRes) :
    Retcode × IdmapIdRes :=
  match req.id1pfx with
  | some p => wksidScanS2P p req.id1rid req.id2idtype res wksidsList
  | none => (.notfound, res)

/-- lookup_wksids_pid2sid: match (fixed pid, is_user, direction not
restricted to W2U); requires the request to want a SID back. -/
def lookup_wksids_pid2sid (req : IdmapMapping) (res : IdmapIdRes)
    (is_user : Nat) : Retcode × IdmapIdRes :=
  if req.id2idtype ≠ .sidT then (.notsupported, res)
  else
    match wksidsList.find? (fun e =>
        e.pid == req.id1pid && e.is_user == is_user &&
        !(e.direction == DIR_W2U)) with
    | some e =>
      (.success,
        { res with
            sidrid := e.rid
            sidpfx := some e.pfx
            dir := e.direction })
    | none => (.notfound, res)

/-- lookup_wksids_sid2name: display name and type of a well-known SID. -/
def lookup_wksids_sid2name (p : String) (r : Nat) :
    Retcode × Option String × Int :=
  match wksidsList.find? (fun e => strcaseEq e.pfx p && e.rid == r) with
  | some e =>
    (.success, some e.winname, if e.is_user ≠ 0 then T_USER else T_GROUP)
  | none => (.notfound, none, 0)

/-- lookup_wksids_name2sid: case-insensitive match on the display name. -/
def lookup_wksids_name2sid (name : String) :
    Retcode × Option (String × Nat × Int) :=
  match wksidsList.find? (fun e => strcaseEq e.winname name) with
  | some e =>
    (.success, some (e.pfx, e.rid, if e.is_user ≠ 0 then T_USER else T_GROUP))
  | none => (.notfound, none)

/-- One row of the `idmap_cache` table. Columns that the schema leaves
nullable are Options; `w2u` is written either as the literal 1 or as
NULL by the updaters, `u2w` likewise. -/
structure CacheRow where
  sidpfx : String
  rid : Nat
  windomain : Option String
  winname : Option String
  pid : Nat
  unixname : Option String
  is_user : Nat
  w2u : Option Nat
  u2w : Option Nat
  expiration : Option Int
  deriving DecidableEq, Repr

/-- One row of the `name_cache` table. -/
structure NameRow where
  sidpfx : String
  rid : Nat
  name : Option String
  domain : Option String
  typ : Option Int
  expiration : Option Int
  deriving DecidableEq, Repr

/-- The TTL disjunct shared by every cache query:
`expiration = 0 OR expiration ISNULL OR expiration > curtime`. -/
def cacheExpValid (expiration : Option Int) (curtime : Int) : Bool :=
  match expiration with
  | none => true
  | some e => e == 0 || curtime < e

/-- The WHERE clause of the sid→pid cache query: key match, the w2u
validity flag, and either the ephemeral-range exemption
(`pid >= 2147483648`) or an unexpired TTL. -/
def idmapCacheW2UMatch (p : String) (r : Nat) (t : Int)
    (row : CacheRow) : Bool :=
  row.sidpfx == p && row.rid == r && row.w2u == some 1 &&
    (2147483648 ≤ row.pid || cacheExpValid row.expiration t)

/-- The WHERE clause of the pid→sid cache query: key match on
(pid, is_user) with the u2w validity flag, same ephemeral exemption. -/
def idmapCacheU2WMatch (pid : Nat) (isu : Nat) (t : Int)
    (row : CacheRow) : Bool :=
  row.pid == pid && row.u2w == some 1 && row.is_user == isu &&
    (2147483648 ≤ row.pid || cacheExpValid row.expiration t)

/-- The WHERE clause of the sid→name cache query: key match and an
unexpired TTL (no ephemeral exemption in the name cache). -/
def nameCacheSidMatch (p : String) (r : Nat) (t : Int)
    (row : NameRow) : Bool :=
  row.sidpfx == p && row.rid == r && cacheExpValid row.expiration t

/-- The WHERE clause of the name→sid cache query. -/
def nameCacheNameMatch (n d : String) (t : Int) (row : NameRow) : Bool :=
  row.name == some n && row.domain == some d &&
    cacheExpValid row.expiration t

/-- lookup_cache_sid2pid: single-step query of the id-mapping cache in
the windows→unix direction. A hit on an expired ephemeral row (when the
caller has not suppressed allocation or the name service) stashes the
ephemeral id in the result, marks the request's expired-ephemeral
pending bit and reports not-found so that resolution continues. -/
def lookup_cache_sid2pid (cache : List CacheRow) (curtime : Int)
    (req : IdmapMapping) (res : IdmapIdRes) :
    Retcode × IdmapMapping × IdmapIdRes :=
  match req.id1pfx with
  | none => (.notfound, req, res)
  | some p =>
    match cache.find? (idmapCacheW2UMatch p req.id1rid curtime) with
    | none => (.notfound, req, res)
    | some row =>
      let pid := row.pid
      let isu : Nat := if row.is_user == 0 then 0 else 1
      let stash : Bool :=
        !req.flagNoNewAlloc && !req.flagNoNameservice &&
        IS_EPHEMERAL pid &&
        (match row.expiration with
         | some e => e ≠ 0 && e ≤ curtime
         | none => false)
      if stash then
        let res' := { res with
            pid := pid
            idtype := if isu == 1 then .uid else .gid
            dir := DIR_BI }
        let req' := { req with
            dirMask := req.dirMask.lor
              (if isu == 1 then F_EXP_EPH_UID else F_EXP_EPH_GID) }
        (.notfound, req', res')
      else
        let step2 : Retcode × IdmapIdRes :=
          match req.id2idtype with
          | .uid =>
            if isu == 0 then (.notuser, res)
            else (.success, { res with pid := pid })
          | .gid =>
            if isu == 1 then (.notgroup, res)
            else (.success, { res with pid := pid })
          | .posixid =>
            (.success, { res with
                pid := pid
                idtype := if isu == 1 then .uid else .gid })
          | _ => (.notsupported, res)
        match step2 with
        | (.success, res1) =>
          let res2 := { res1 with
              dir := match row.u2w with
                     | none => DIR_W2U
                     | some v => if v == 0 then DIR_W2U else DIR_BI }
          let req2 :=
            match row.unixname with
            | some un => { req with id2name := some un }
            | none => req
          (.success, req2, res2)
        | (rc, res1) => (rc, req, res1)

/-- lookup_cache_sid2name: single-step query of the name cache by SID;
a row with a NULL type column is a corrupt cache entry. The callers in
scope request name, domain and type. -/
def lookup_cache_sid2name (ncache : List NameRow) (curtime : Int)
    (p : String) (r : Nat) : Retcode × Option String × Option String × Int :=
  match ncache.find? (nameCacheSidMatch p r curtime) with
  | none => (.notfound, none, none, 0)
  | some row =>
    match row.typ with
    | none => (.cacheErr, none, none, 0)
    | some ty => (.success, row.name, row.domain, ty)

/-- lookup_cache_name2sid: single-step query of the name cache by
(name, domain). -/
def lookup_cache_name2sid (ncache : List NameRow) (curtime : Int)
    (n d : String) : Retcode × Option (String × Nat × Int) :=
  match ncache.find? (nameCacheNameMatch n d curtime) with
  | none => (.notfound, none)
  | some row =>
    match row.typ with
    | none => (.cacheErr, none)
    | some ty =>
      match row.sidpfx, row.rid with
      | p, r => (.success, some (p, r, ty))

/-- lookup_cache_pid2sid: single-step query of the id-mapping cache in
the unix→windows direction; optionally also copies the cached windows
name and domain into the request. -/
def lookup_cache_pid2sid (cache : List CacheRow) (curtime : Int)
    (req : IdmapMapping) (res : IdmapIdRes) (is_user : Nat)
    (getname : Bool) : Retcode × IdmapMapping × IdmapIdRes :=
  match cache.find? (idmapCacheU2WMatch req.id1pid is_user curtime) with
  | none => (.notfound, req, res)
  | some row =>
    match req.id2idtype with
    | .sidT =>
      let res1 := { res with
          sidrid := row.rid
          sidpfx := some row.sidpfx
          dir := match row.w2u with
                 | none => DIR_U2W
                 | some v => if v == 0 then DIR_U2W else DIR_BI }
      if !getname then (.success, req, res1)
      else
        match row.winname with
        | none => (.success, req, res1)
        | some wn =>
          let req1 := { req with id2name := some wn }
          match row.windomain with
          | none => (.success, req1, res1)
          | some wd =>
            (.success, { req1 with id2domain := some wd }, res1)
    | _ => (.notsupported, req, res)

/-- verify_type: check the resolved name type against the requested id
type and fix up the result's type for POSIXID requests. -/
def verify_type (idt : IdType) (ty : Int) (res : IdmapIdRes) :
    Retcode × IdmapIdRes :=
  match idt with
  | .uid =>
    if ty ≠ T_USER then (.notuser, res)
    else (.success, { res with idtype := .uid })
  | .gid =>
    if ty ≠ T_GROUP then (.notgroup, res)
    else (.success, { res with idtype := .gid })
  | .posixid =>
    if ty == T_USER then (.success, { res with idtype := .uid })
    else if ty == T_GROUP then (.success, { res with idtype := .gid })
    else (.sidinvalid, res)
  | _ => (.notsupported, res)

/-- lookup_local_sid2name: resolve a SID to winname@domain from the
well-known table and then the name cache, updating the request's known
name on success (even when the subsequent type check fails, as in the
C). The request prefix is non-null on every reachable path. -/
def lookup_local_sid2name (ncache : List NameRow) (curtime : Int)
    (req : IdmapMapping) (res : IdmapIdRes) :
    Retcode × IdmapMapping × IdmapIdRes :=
  match req.id1pfx with
  | none => (.notfound, req, res)
  | some p =>
    let wk := lookup_wksids_sid2name p req.id1rid
    let out : Retcode × Option String × Option String × Int :=
      if wk.1 ≠ .notfound then (wk.1, wk.2.1, none, wk.2.2)
      else lookup_cache_sid2name ncache curtime p req.id1rid
    match out with
    | (.success, name, domain, ty) =>
      let (rc2, res') := verify_type req.id2idtype ty res
      let req' := { req with
          id1name := match name with
                     | some n => some n
                     | none => req.id1name
          id1domain := match domain with
                       | some d => some d
                       | none => req.id1domain }
      (rc2, req', res')
    | (rc, _, _, _) => (rc, req, res)

/-- A slot of the per-batch SID-history open-addressed table. -/
structure SidSlot where
  key : Nat
  nxt : Nat
  deriving DecidableEq, Repr

/-- The per-batch lookup state (`lookup_state_t`): completion flags,
the AD-query counter, the current batch position, the SID-history
index with the batch and result arrays it keys into. -/
structure LookupState where
  sid2pid_done : Bool
  pid2sid_done : Bool
  ad_nqueries : Nat
  curpos : Nat
  sidHistory : Option (List SidSlot)
  sidHistorySize : Nat
  batchSids : List (String × Nat)
  resultPids : List Nat
  deriving DecidableEq, Repr

/-- sid2pid_first_pass: the windows→unix pass-1 state machine:
well-known table, then cache, then the terminal sentinel for
no-allocation requests, then local name resolution with the AD batch
collection fallback. The function result is the C return value; the
protocol status is additionally stored into the result record. -/
def sid2pid_first_pass (st : LookupState) (cache : List CacheRow)
    (ncache : List NameRow) (curtime : Int) (req : IdmapMapping)
    (res : IdmapIdRes) :
    Retcode × LookupState × IdmapMapping × IdmapIdRes :=
  let req := { req with dirMask := F_DONE }
  match req.id1pfx with
  | none =>
    (.sidinvalid, st, req,
      { res with retcode := idmap_stat4prot .sidinvalid })
  | some _ =>
    let res := { res with idtype := req.id2idtype, pid := UID_NOBODY }
    let wk := lookup_wksids_sid2pid req res
    if wk.1 ≠ .notfound then
      (wk.1, st, req, { wk.2 with retcode := idmap_stat4prot wk.1 })
    else
      let res := wk.2
      match lookup_cache_sid2pid cache curtime req res with
      | (.notfound, req, res) =>
        if req.flagNoNewAlloc || req.flagNoNameservice then
          let res := { res with pid := SENTINEL_PID }
          (.notfound, st, req,
            { res with retcode := idmap_stat4prot .notfound })
        else
          let st := { st with sid2pid_done := false }
          if req.id1name.isSome && req.id1domain.isSome then
            let req := { req with dirMask := req.dirMask.lor F_S2N_CACHE }
            (.success, st, req,
              { res with retcode := idmap_stat4prot .success })
          else
            match lookup_local_sid2name ncache curtime req res with
            | (.success, req, res) =>
              let req := { req with dirMask := req.dirMask.lor F_S2N_CACHE }
              (.success, st, req,
                { res with retcode := idmap_stat4prot .success })
            | (.notfound, req, res) =>
              let req := { req with dirMask := req.dirMask.lor F_S2N_AD }
              let st := { st with ad_nqueries := st.ad_nqueries + 1 }
              (.success, st, req,
                { res with retcode := idmap_stat4prot .success })
            | (rc, req, res) =>
              (rc, st, req, { res with retcode := idmap_stat4prot rc })
      | (rc, req, res) =>
        (rc, st, req, { res with retcode := idmap_stat4prot rc })

/-- One row of the `namerules` table. -/
structure NameRule where
  is_user : Nat
  windomain : Option String
  winname : Option String
  is_nt4 : Nat
  unixname : Option String
  w2u_order : Option Nat
  u2w_order : Option Nat
  deriving DecidableEq, Repr

/-- The daemon configuration fields the engine reads. -/
structure Config where
  machine_sid : Option String
  mapping_domain : Option String
  deriving DecidableEq, Repr

/-- Outcome of one unix name-service query. -/
inductive NsOut
  | found (id : Nat)
  | absent
  | failure
  deriving DecidableEq, Repr

/-- Outcome of one reverse (id to name) name-service query. -/
inductive NsNameOut
  | found (name : String)
  | absent
  | failure
  deriving DecidableEq, Repr

/-- The unix name service (getpwnam_r / getgrnam_r and the reverse
getpwuid_r / getgrgid_r), an external collaborator: lookups by
(is_user, name) and by (is_user, id). -/
structure NsSvc where
  byname : Nat → String → NsOut
  byid : Nat → Nat → NsNameOut

/-- ns_lookup_byname: resolve a unix name via the name service, storing
the id and its type in the result on success. The C passes the name
pointer straight to getpwnam_r, so a missing name (NULL) cannot occur
on the reachable paths; it is modelled as the internal-error outcome. -/
def ns_lookup_byname (ns : NsSvc) (is_user : Nat) (name : Option String)
    (res : IdmapIdRes) : Retcode × IdmapIdRes :=
  match name with
  | none => (.internalErr, res)
  | some n =>
    match ns.byname is_user n with
    | .found id =>
      if is_user ≠ 0 then (.success, { res with pid := id, idtype := .uid })
      else (.success, { res with pid := id, idtype := .gid })
    | .absent => (.notfound, res)
    | .failure => (.internalErr, res)

/-- The WHERE clause of the windows→unix rule query:
`w2u_order > 0 AND is_user = %d AND (winname = %Q OR winname = '*') AND
(windomain = %Q OR windomain = '*' [OR windomain ISNULL OR windomain = ''])`,
the bracketed disjuncts being added only when the request domain equals
the configured mapping domain (the `i` flag in the C). -/
def w2uRuleMatch (isu : Nat) (wn : Option String) (wd : String)
    (iFlag : Bool) (r : NameRule) : Bool :=
  (match r.w2u_order with
   | some k => 0 < k
   | none => false) &&
  r.is_user == isu &&
  ((match wn with
    | some w => r.winname == some w
    | none => false) || r.winname == some "*") &&
  (r.windomain == some wd || r.windomain == some "*" ||
    (iFlag && (r.windomain == none || r.windomain == some "")))

/-- The WHERE clause of the unix→windows rule query:
`u2w_order > 0 AND is_user = %d AND (unixname = %Q OR unixname = '*')`. -/
def u2wRuleMatch (isu : Nat) (un : String) (r : NameRule) : Bool :=
  (match r.u2w_order with
   | some k => 0 < k
   | none => false) &&
  r.is_user == isu &&
  (r.unixname == some un || r.unixname == some "*")

/-- Insert a rule into a list sorted ascending on the given key
(the ORDER BY of the rule queries). -/
def insertByOrder (key : NameRule → Nat) (x : NameRule) :
    List NameRule → List NameRule
  | [] => [x]
  | y :: ys =>
    if key x ≤ key y then x :: y :: ys else y :: insertByOrder key x ys

/-- Sort rules ascending on the given priority column. -/
def sortByOrder (key : NameRule → Nat) : List NameRule → List NameRule
  | [] => []
  | x :: xs => insertByOrder key x (sortByOrder key xs)

/-- The candidate loop of name_based_mapping_sid2pid, over the rules in
ascending w2u priority: an empty destination is a terminal explicit
no-mapping; a literal destination is resolved in the name service and
is terminal whether that succeeds or fails; a wildcard destination
resolves the source winname and on not-found falls through to the next
candidate; exhaustion is not-found. On success the mapping direction is
derived from the matched rule's u2w_order and the destination unixname
is recorded in the request. -/
def nbmLoop (ns : NsSvc) (isu : Nat) (winname : Option String)
    (req : IdmapMapping) (res : IdmapIdRes) :
    List NameRule → Retcode × IdmapMapping × IdmapIdRes
  | [] => (.notfound, req, res)
  | row :: rest =>
    match row.unixname with
    | none => (.internalErr, req, res)
    | some u =>
      if EMPTY_NAME u then (.nomapping, req, res)
      else
        let wild := isWild u
        let uname : Option String := if wild then winname else some u
        match ns_lookup_byname ns isu uname res with
        | (.notfound, res') =>
          if wild then nbmLoop ns isu winname req res' rest
          else (.nomapping, req, res')
        | (.success, res') =>
          let res'' := { res' with
              dir := match row.u2w_order with
                     | none => DIR_W2U
                     | some v => if v == 0 then DIR_W2U else DIR_BI }
          (.success, { req with id2name := uname }, res'')
        | (rc, res') => (rc, req, res')

/-- name_based_mapping_sid2pid: select the applicable windows→unix
rules for the request's winname@domain, ordered by ascending priority,
and evaluate them with `nbmLoop`. The user/group axis comes from the
result type established in pass 1. -/
def name_based_mapping_sid2pid (rules : List NameRule) (cfg : Config)
    (ns : NsSvc) (req : IdmapMapping) (res : IdmapIdRes) :
    Retcode × IdmapMapping × IdmapIdRes :=
  let winname := req.id1name
  let windomain := req.id1domain
  let isu : Nat := if res.idtype == .uid then 1 else 0
  let iFlag : Bool :=
    match windomain with
    | none => false
    | some wd =>
      match cfg.mapping_domain with
      | some md => strcaseEq md wd
      | none => false
  let wd : String :=
    match windomain with
    | none => ""
    | some d => d
  let cands := sortByOrder (fun r =>
      match r.w2u_order with
      | some k => k
      | none => 0)
    (rules.filter (w2uRuleMatch isu winname wd iFlag))
  nbmLoop ns isu winname req res cands

/-- The process-wide ephemeral-allocator counters owned by
`_idmapdstate`: next id and window limit for each of the uid and gid
ranges (uid_t arithmetic, hence the explicit mod 2^32 below). -/
structure AdState where
  next_uid : Nat
  limit_uid : Nat
  next_gid : Nat
  limit_gid : Nat
  deriving DecidableEq, Repr

/-- get_next_eph_uid: post-increment the uid counter; at the window
limit, request a fresh 8192-id block from the id-space authority
(`allocids`, an external collaborator modelled by the `authority`
parameter: the base of the granted block, or `none` on failure), then
publish the new window. `none` in the first component is the allocation
failure the C signals with a nonzero error return. -/
def get_next_eph_uid (authority : Option Nat) (ad : AdState) :
    Option Nat × AdState :=
  let uid := ad.next_uid
  let ad1 := { ad with next_uid := (ad.next_uid + 1) % 4294967296 }
  if ad1.limit_uid ≤ uid then
    match authority with
    | none => (none, ad1)
    | some base =>
      (some base, { ad1 with
          limit_uid := (base + 8192) % 4294967296
          next_uid := base })
  else (some uid, ad1)

/-- get_next_eph_gid: the gid counterpart of `get_next_eph_uid`. -/
def get_next_eph_gid (authority : Option Nat) (ad : AdState) :
    Option Nat × AdState :=
  let gid := ad.next_gid
  let ad1 := { ad with next_gid := (ad.next_gid + 1) % 4294967296 }
  if ad1.limit_gid ≤ gid then
    match authority with
    | none => (none, ad1)
    | some base =>
      (some base, { ad1 with
          limit_gid := (base + 8192) % 4294967296
          next_gid := base })
  else (some gid, ad1)

/-- Sign extension of one byte added as a (signed) `char` to the 32-bit
unsigned hash accumulator. -/
def signedByte (b : Nat) : Nat :=
  if b < 128 then b else b + 4294967040

/-- One accumulation step of `gethash`:
`hval += b; hval += hval << 10; hval ^= hval >> 6` in uint32. -/
def hashStep (hval b : Nat) : Nat :=
  let h1 := (hval + b) % 4294967296
  let h2 := (h1 + h1 * 1024) % 4294967296
  Nat.xor h2 (h2 / 64) % 4294967296

/-- gethash: Jenkins-style hash of the prefix string bytes (SID
prefixes are ASCII, so code points coincide with bytes) followed by the
four little-endian bytes of the rid, reduced mod the table size. A NULL
string hashes to 0. -/
def gethash (s : Option String) (num htsize : Nat) : Nat :=
  match s with
  | none => 0
  | some str =>
    let h0 := str.data.foldl
      (fun h c => hashStep h (signedByte (c.toNat % 256))) 0
    let h1 := [num % 256, num / 256 % 256, num / 65536 % 256,
               num / 16777216 % 256].foldl
      (fun h b => hashStep h (signedByte b)) h0
    let h2 := (h1 + h1 * 8) % 4294967296
    let h3 := Nat.xor h2 (h2 / 2048) % 4294967296
    let h4 := (h3 + h3 * 32768) % 4294967296
    h4 % htsize

/-- The chain-following loop of get_from_sid_history. The fuel bounds
the chain walk; a well-formed table (as sized by the batch set-up)
never exhausts it, matching the C loop that terminates on an empty home
slot or the end of the chain. -/
def sidHistLookup (hist : List SidSlot) (htsize : Nat)
    (batch : List (String × Nat)) (results : List Nat)
    (pfx : String) (rid : Nat) : Nat → Nat → Option Nat
  | 0, _ => none
  | fuel + 1, next =>
    if next == htsize then none
    else
      match hist.get? next with
      | none => none
      | some slot =>
        if slot.key == htsize then none
        else
          match batch.get? slot.key with
          | none => none
          | some (p, r) =>
            if r == rid && p == pfx then results.get? slot.key
            else
              sidHistLookup hist htsize batch results pfx rid fuel slot.nxt

/-- get_from_sid_history: look up the (prefix, rid) of the current
request in the per-batch SID-history index; a hit returns the id
already assigned to the batch item recorded in the slot. -/
def get_from_sid_history (hist : List SidSlot) (htsize : Nat)
    (batch : List (String × Nat)) (results : List Nat)
    (pfx : String) (rid : Nat) : Option Nat :=
  sidHistLookup hist htsize batch results pfx rid (htsize + 1)
    (gethash (some pfx) rid htsize)

/-- The linear-probe loop of add_to_sid_history: first free slot at or
after the home slot, wrapping mod the table size. `none` on fuel
exhaustion corresponds to a full table, on which the C loops forever;
the batch set-up sizes the table at least to the batch length, so this
is unreachable. -/
def sidHistProbe (hist : List SidSlot) (htsize : Nat) :
    Nat → Nat → Option Nat
  | 0, _ => none
  | fuel + 1, next =>
    match hist.get? next with
    | none => none
    | some slot =>
      if slot.key ≠ htsize then
        sidHistProbe hist htsize fuel ((next + 1) % htsize)
      else some next

/-- add_to_sid_history: record that the batch item at `curpos` owns the
(prefix, rid) just mapped; on a collision the new slot is linked into
the home slot's chain. -/
def add_to_sid_history (hist : List SidSlot) (htsize curpos : Nat)
    (pfx : String) (rid : Nat) : List SidSlot :=
  let hash := gethash (some pfx) rid htsize
  match sidHistProbe hist htsize (htsize + 1) hash with
  | none => hist
  | some next =>
    let hist1 :=
      match hist.get? next with
      | some slot => hist.set next { slot with key := curpos }
      | none => hist
    if hash == next then hist1
    else
      match hist1.get? hash, hist1.get? next with
      | some hslot, some nslot =>
        (hist1.set next { nslot with nxt := hslot.nxt }).set hash
          { hslot with nxt := next }
      | _, _ => hist1

/-- dynamic_ephemeral_mapping: assign an ephemeral id. A result already
holding an ephemeral id (the pass-1 stash of an expired ephemeral
mapping) is returned as is; otherwise the batch SID history is
consulted so a SID already mapped in this batch reuses the same id;
otherwise a fresh id is minted from the allocator and registered in the
history. A NULL request prefix cannot occur on the reachable paths and
is modelled as a history miss. -/
def dynamic_ephemeral_mapping (st : LookupState) (ad : AdState)
    (authU authG : Option Nat) (req : IdmapMapping) (res : IdmapIdRes) :
    Retcode × IdmapIdRes × LookupState × AdState :=
  let res := { res with dir := DIR_BI }
  if IS_EPHEMERAL res.pid then (.success, res, st, ad)
  else
    let hit : Option Nat :=
      match st.sidHistory, req.id1pfx with
      | some hist, some p =>
        get_from_sid_history hist st.sidHistorySize st.batchSids
          st.resultPids p req.id1rid
      | _, _ => none
    match hit with
    | some pid => (.success, { res with pid := pid }, st, ad)
    | none =>
      let minted : Option Nat × AdState :=
        if res.idtype == .uid then get_next_eph_uid authU ad
        else get_next_eph_gid authG ad
      match minted with
      | (none, ad1) => (.internalErr, res, st, ad1)
      | (some pid, ad1) =>
        let res := { res with pid := pid }
        let st1 :=
          match st.sidHistory, req.id1pfx with
          | some hist, some p =>
            { st with sidHistory := some (add_to_sid_history hist
                st.sidHistorySize st.curpos p req.id1rid) }
          | _, _ => st
        (.success, res, st1, ad1)

/-- generate_localsid: synthesize a machine-local SID
(machine-sid-prefix)-(1000 + uid) or (machine-sid-prefix)-(2^31 + gid)
as the terminal unix→windows fallback; marks the request as
name-from-cache so the cache updater skips the name cache. -/
def generate_localsid (cfg : Config) (req : IdmapMapping)
    (res : IdmapIdRes) (is_user : Nat) :
    Retcode × IdmapMapping × IdmapIdRes :=
  match cfg.machine_sid with
  | none => (.nomapping, req, res)
  | some ms =>
    if is_user ≠ 0 && INT32_MAX - LOCALRID_MIN < req.id1pid then
      (.nomapping, req, res)
    else
      let res := { res with
          sidpfx := some ms
          sidrid := if is_user ≠ 0 then req.id1pid + LOCALRID_MIN
                    else req.id1pid + INT32_MAX + 1
          dir := DIR_BI }
      (.success, { req with dirMask := F_S2N_CACHE }, res)

/-- lookup_localsid2pid: arithmetic unmapping of a machine-local SID
back to the locally assigned uid/gid range. -/
def lookup_localsid2pid (cfg : Config) (req : IdmapMapping)
    (res : IdmapIdRes) : Retcode × IdmapIdRes :=
  let rid := req.id1rid
  let isLocal : Bool :=
    match cfg.machine_sid, req.id1pfx with
    | some ms, some p => strcaseEq p ms
    | _, _ => false
  if isLocal then
    match req.id2idtype with
    | .uid =>
      if INT32_MAX < rid then (.notuser, res)
      else if rid < LOCALRID_MIN then (.notfound, res)
      else (.success, { res with pid := rid - LOCALRID_MIN, idtype := .uid })
    | .gid =>
      if rid ≤ INT32_MAX then (.notgroup, res)
      else (.success, { res with pid := rid - INT32_MAX - 1, idtype := .gid })
    | .posixid =>
      if INT32_MAX < rid then
        (.success, { res with pid := rid - INT32_MAX - 1, idtype := .gid })
      else if rid < LOCALRID_MIN then (.notfound, res)
      else (.success, { res with pid := rid - LOCALRID_MIN, idtype := .uid })
    | _ => (.notsupported, res)
  else (.notfound, res)

/-- sid2pid_second_pass: the windows→unix pass-2 state machine: skip
items already done; on a failed pass 1, try the machine-local SID
decode; for AD-validated names, re-verify the requested type; then the
name-rule engine, falling back to ephemeral allocation when it reports
not-found. -/
def sid2pid_second_pass (st : LookupState) (ad : AdState)
    (authU authG : Option Nat) (rules : List NameRule) (cfg : Config)
    (ns : NsSvc) (req : IdmapMapping) (res : IdmapIdRes) :
    Retcode × LookupState × AdState × IdmapMapping × IdmapIdRes :=
  if req.dirMask == F_DONE then (res.retcode, st, ad, req, res)
  else
    let rc0 := if res.retcode == .nextRc then Retcode.success else res.retcode
    if rc0 ≠ .success then
      let res := { res with idtype := req.id2idtype, pid := UID_NOBODY }
      if rc0 == .notfound && cfg.machine_sid.isSome then
        match lookup_localsid2pid cfg req res with
        | (.success, res) =>
          let st := { st with sid2pid_done := false }
          let req := { req with dirMask := F_S2N_CACHE }
          (.success, st, ad, req,
            { res with retcode := idmap_stat4prot .success })
        | (rc, res) =>
          (rc, st, ad, req, { res with retcode := idmap_stat4prot rc })
      else
        (rc0, st, ad, req, { res with retcode := idmap_stat4prot rc0 })
    else
      let adCheck : Retcode × IdmapIdRes :=
        if hasFlag req.dirMask F_S2N_AD then
          verify_type req.id2idtype res.adTy res
        else (.success, res)
      match adCheck with
      | (.success, res) =>
        match name_based_mapping_sid2pid rules cfg ns req res with
        | (.notfound, req, res) =>
          match dynamic_ephemeral_mapping st ad authU authG req res with
          | (.success, res, st, ad) =>
            let st := { st with sid2pid_done := false }
            (.success, st, ad, req,
              { res with retcode := idmap_stat4prot .success })
          | (rc, res, st, ad) =>
            (rc, st, ad, req, { res with retcode := idmap_stat4prot rc })
        | (.success, req, res) =>
          let st := { st with sid2pid_done := false }
          (.success, st, ad, req,
            { res with retcode := idmap_stat4prot .success })
        | (rc, req, res) =>
          (rc, st, ad, req, { res with retcode := idmap_stat4prot rc })
      | (rc, res) =>
        let res := { res with idtype := req.id2idtype, pid := UID_NOBODY }
        (rc, st, ad, req, { res with retcode := idmap_stat4prot rc })

/-- INSERT OR REPLACE into `idmap_cache`: rows conflicting with the new
row on either unique index — (sidprefix, rid, w2u) or
(pid, is_user, u2w) — are replaced; a NULL in an indexed column never
conflicts, which is exactly why the updaters write NULL rather than 0
into the direction columns. -/
def insertOrReplaceIdmap (cache : List CacheRow) (nr : CacheRow) :
    List CacheRow :=
  nr :: cache.filter (fun row => !(
    (row.sidpfx == nr.sidpfx && row.rid == nr.rid &&
      row.w2u == nr.w2u && nr.w2u ≠ none) ||
    (row.pid == nr.pid && row.is_user == nr.is_user &&
      row.u2w == nr.u2w && nr.u2w ≠ none)))

/-- INSERT OR REPLACE into `name_cache`, unique on (sidprefix, rid). -/
def insertOrReplaceName (ncache : List NameRow) (nr : NameRow) :
    List NameRow :=
  nr :: ncache.filter (fun row =>
    !(row.sidpfx == nr.sidpfx && row.rid == nr.rid))

/-- update_cache_sid2pid: after a windows→unix resolution, write the
id-mapping row (TTL 600s) and, unless the name came from local data,
the name-cache row (TTL 3600s). Items never computed (still marked
done) and items whose final status is not success write nothing. When a
pending expired-ephemeral bit is set and the final id is no longer
ephemeral, the stale ephemeral row's w2u validity bit is cleared first.
The request prefix is non-null on every path with a successful result. -/
def update_cache_sid2pid (st : LookupState) (cache : List CacheRow)
    (ncache : List NameRow) (now : Int) (req : IdmapMapping)
    (res : IdmapIdRes) :
    Retcode × LookupState × List CacheRow × List NameRow :=
  if req.dirMask == F_DONE then (.success, st, cache, ncache)
  else if res.retcode ≠ .success then (.success, st, cache, ncache)
  else
    let is_eph_user : Int :=
      if hasFlag req.dirMask F_EXP_EPH_UID then 1
      else if hasFlag req.dirMask F_EXP_EPH_GID then 0
      else -1
    let cache1 :=
      if 0 ≤ is_eph_user && !IS_EPHEMERAL res.pid then
        cache.map (fun row =>
          if (match req.id1pfx with
              | some p => row.sidpfx == p
              | none => false) &&
             row.rid == req.id1rid && row.w2u == some 1 &&
             2147483648 ≤ row.pid &&
             (row.is_user : Int) == is_eph_user then
            { row with w2u := some 0 }
          else row)
      else cache
    let nr : CacheRow :=
      { sidpfx :=
          match req.id1pfx with
          | some p => p
          | none => ""
        rid := req.id1rid
        windomain := req.id1domain
        winname := req.id1name
        pid := res.pid
        unixname := req.id2name
        is_user := if res.idtype == .uid then 1 else 0
        w2u := some 1
        u2w := if res.dir == 0 then some 1 else none
        expiration := some (now + 600) }
    let cache2 := insertOrReplaceIdmap cache1 nr
    let st := { st with sid2pid_done := false }
    if hasFlag req.dirMask F_S2N_CACHE then (.success, st, cache2, ncache)
    else
      match req.id1name with
      | none => (.success, st, cache2, ncache)
      | some n1 =>
        let nnr : NameRow :=
          { sidpfx :=
              match req.id1pfx with
              | some p => p
              | none => ""
            rid := req.id1rid
            name := some n1
            domain := req.id1domain
            typ := some (if res.idtype == .uid then T_USER else T_GROUP)
            expiration := some (now + 3600) }
        (.success, st, cache2, insertOrReplaceName ncache nnr)

/-- update_cache_pid2sid: the unix→windows cache updater, symmetric to
`update_cache_sid2pid` (with the w2u column the one written as NULL for
one-directional mappings and u2w the validity bit). -/
def update_cache_pid2sid (st : LookupState) (cache : List CacheRow)
    (ncache : List NameRow) (now : Int) (req : IdmapMapping)
    (res : IdmapIdRes) :
    Retcode × LookupState × List CacheRow × List NameRow :=
  if req.dirMask == F_DONE then (.success, st, cache, ncache)
  else if res.retcode ≠ .success then (.success, st, cache, ncache)
  else
    let nr : CacheRow :=
      { sidpfx :=
          match res.sidpfx with
          | some p => p
          | none => ""
        rid := res.sidrid
        windomain := req.id2domain
        winname := req.id2name
        pid := req.id1pid
        unixname := req.id1name
        is_user := if req.id1idtype == .uid then 1 else 0
        w2u := if res.dir == 0 then some 1 else none
        u2w := some 1
        expiration := some (now + 600) }
    let cache1 := insertOrReplaceIdmap cache nr
    let st := { st with pid2sid_done := false }
    if hasFlag req.dirMask F_S2N_CACHE then (.success, st, cache1, ncache)
    else
      match req.id2name with
      | none => (.success, st, cache1, ncache)
      | some n2 =>
        let nnr : NameRow :=
          { sidpfx :=
              match res.sidpfx with
              | some p => p
              | none => ""
            rid := res.sidrid
            name := some n2
            domain := req.id2domain
            typ := some (if req.id1idtype == .uid then T_USER else T_GROUP)
            expiration := some (now + 3600) }
        (.success, st, cache1, insertOrReplaceName ncache nnr)

/-- The AD directory-lookup client (external collaborator, spec §4.5):
the observable outcome of one fully retried name→SID directory lookup
(SID prefix, rid and name type on success). The bounded-retry transport
of `lookup_win_name2sid` wraps external calls only, so the engine sees
exactly this interface. -/
structure AdSvc where
  name2sid : String → String → Retcode × Option (String × Nat × Int)

/-- lookup_win_name2sid: resolve name@domain through the directory
client (see `AdSvc`). -/
def lookup_win_name2sid (adsvc : AdSvc) (n d : String) :
    Retcode × Option (String × Nat × Int) :=
  adsvc.name2sid n d

/-- lookup_name2sid: well-known table, then name cache, then the AD
directory; on a hit the request is flagged with where the name came
from, and the resolved type is checked against (or resolves) the
in/out is_user selector. The SID components are written through the
out-pointers by the successful source even when the final type check
fails, so they are returned alongside every outcome. -/
def lookup_name2sid (ncache : List NameRow) (curtime : Int)
    (adsvc : AdSvc) (n d : String) (is_user : Int) (req : IdmapMapping) :
    Retcode × Int × Option (String × Nat) × IdmapMapping :=
  let afterSrc : Retcode × Option (String × Nat × Int) × IdmapMapping :=
    match lookup_wksids_name2sid n with
    | (.success, some out) =>
      (.success, some out,
        { req with dirMask := req.dirMask.lor F_S2N_CACHE })
    | (.success, none) => (.success, none, req)
    | (rc, _) =>
      if rc ≠ .notfound then (rc, none, req)
      else
        match lookup_cache_name2sid ncache curtime n d with
        | (.notfound, _) =>
          match lookup_win_name2sid adsvc n d with
          | (.success, out) =>
            (.success, out,
              { req with dirMask := req.dirMask.lor F_S2N_AD })
          | (rc2, _) => (rc2, none, req)
        | (.success, out) =>
          (.success, out,
            { req with dirMask := req.dirMask.lor F_S2N_CACHE })
        | (rc2, _) => (rc2, none, req)
  match afterSrc with
  | (.success, some (p, r, ty), req) =>
    if is_user == 1 then
      if ty ≠ T_USER then (.notuser, is_user, some (p, r), req)
      else (.success, is_user, some (p, r), req)
    else if is_user == 0 then
      if ty ≠ T_GROUP then (.notgroup, is_user, some (p, r), req)
      else (.success, is_user, some (p, r), req)
    else if is_user == -1 then
      if ty == T_USER then (.success, 1, some (p, r), req)
      else if ty == T_GROUP then (.success, 0, some (p, r), req)
      else (.sidinvalid, is_user, some (p, r), req)
    else (.success, is_user, some (p, r), req)
  | (.success, none, req) => (.success, is_user, none, req)
  | (rc, _, req) => (rc, is_user, none, req)

/-- The candidate loop of name_based_mapping_pid2sid, over the rules in
ascending u2w priority: empty winname is a terminal no-mapping; a NULL
rule domain falls back to the configured mapping domain or fails with
domain-not-found; a wildcard winname resolves the unixname itself and
falls through to the next candidate on not-found. -/
def nbmU2WLoop (ncache : List NameRow) (curtime : Int) (adsvc : AdSvc)
    (mapping_domain : Option String) (unixname : String) (is_user : Int)
    (req : IdmapMapping) (res : IdmapIdRes) :
    List NameRule → Retcode × IdmapMapping × IdmapIdRes
  | [] => (.notfound, req, res)
  | row :: rest =>
    match row.winname with
    | none => (.internalErr, req, res)
    | some w =>
      if EMPTY_NAME w then (.nomapping, req, res)
      else
        let wild := isWild w
        let winname := if wild then unixname else w
        match (match row.windomain with
               | some d => some d
               | none => mapping_domain) with
        | none => (.domainNotfound, req, res)
        | some d =>
          match lookup_name2sid ncache curtime adsvc winname d is_user req with
          | (rc, _, sidOut, req') =>
            let res' :=
              match sidOut with
              | some (p, r) => { res with sidpfx := some p, sidrid := r }
              | none => res
            if rc == .notfound then
              if wild then
                nbmU2WLoop ncache curtime adsvc mapping_domain unixname
                  is_user req' res' rest
              else (.nomapping, req', res')
            else if rc == .success then
              let res'' := { res' with
                  dir := match row.w2u_order with
                         | none => DIR_U2W
                         | some v => if v == 0 then DIR_U2W else DIR_BI }
              (.success,
                { req' with
                    id2name := some winname
                    id2domain := some d }, res'')
            else (rc, req', res')

/-- name_based_mapping_pid2sid: select the applicable unix→windows
rules for the unixname, ordered by ascending u2w priority, and evaluate
them with `nbmU2WLoop`. -/
def name_based_mapping_pid2sid (rules : List NameRule) (cfg : Config)
    (ncache : List NameRow) (curtime : Int) (adsvc : AdSvc)
    (unixname : String) (is_user : Int) (req : IdmapMapping)
    (res : IdmapIdRes) : Retcode × IdmapMapping × IdmapIdRes :=
  let isu : Nat := if is_user == 0 then 0 else 1
  let cands := sortByOrder (fun r =>
      match r.u2w_order with
      | some k => k
      | none => 0)
    (rules.filter (u2wRuleMatch isu unixname))
  nbmU2WLoop ncache curtime adsvc cfg.mapping_domain unixname is_user
    req res cands

/-- pid2sid_first_pass: the unix→windows resolution: well-known table,
cache, the terminal no-mapping outcomes for ephemeral source ids and
for requests that suppress allocation or the name service, then the
name service, the u2w rule engine and the machine-local SID fallback.
The dangling `} if` in the C makes the assignment of the caller-known
id1name to unixname dead: the name service is always consulted. -/
def pid2sid_first_pass (st : LookupState) (cache : List CacheRow)
    (ncache : List NameRow) (rules : List NameRule) (cfg : Config)
    (ns : NsSvc) (adsvc : AdSvc) (curtime : Int) (req : IdmapMapping)
    (res : IdmapIdRes) (is_user : Nat) (getname : Bool) :
    Retcode × LookupState × IdmapMapping × IdmapIdRes :=
  let req := { req with dirMask := F_DONE }
  let res := { res with idtype := req.id2idtype }
  let finish := fun (rc : Retcode) (st : LookupState) (req : IdmapMapping)
      (res : IdmapIdRes) (uname : Option String) =>
    let req :=
      if rc == .success && req.id1name == none && uname.isSome then
        { req with id1name := uname }
      else req
    let st := if req.dirMask ≠ F_DONE then { st with pid2sid_done := false }
              else st
    (rc, st, req, { res with retcode := idmap_stat4prot rc })
  let wk := lookup_wksids_pid2sid req res is_user
  if wk.1 ≠ .notfound then finish wk.1 st req wk.2 none
  else
    match lookup_cache_pid2sid cache curtime req wk.2 is_user getname with
    | (.notfound, req, res) =>
      if IS_EPHEMERAL req.id1pid then finish .nomapping st req res none
      else if req.flagNoNewAlloc || req.flagNoNameservice then
        finish .nomapping st req res none
      else
        match ns.byid is_user req.id1pid with
        | .absent =>
          let fb := generate_localsid cfg req res is_user
          finish .notfound st fb.2.1 fb.2.2 none
        | .failure =>
          let fb := generate_localsid cfg req res is_user
          finish .internalErr st fb.2.1 fb.2.2 none
        | .found unixname =>
          match name_based_mapping_pid2sid rules cfg ncache curtime adsvc
              unixname is_user req res with
          | (.notfound, req, res) =>
            match generate_localsid cfg req res is_user with
            | (rc, req, res) => finish rc st req res (some unixname)
          | (.success, req, res) =>
            finish .success st req res (some unixname)
          | (rc, req, res) =>
            match generate_localsid cfg req res is_user with
            | (_, req, res) => finish rc st req res (some unixname)
    | (rc, req, res) => finish rc st req res none

/-- An empty lookup state: no SID history, nothing pending. -/
def st0 : LookupState :=
  { sid2pid_done := true, pid2sid_done := true, ad_nqueries := 0,
    curpos := 0, sidHistory := none, sidHistorySize := 0,
    batchSids := [], resultPids := [] }

/-- A configuration with no machine SID and no mapping domain. -/
def cfg0 : Config := { machine_sid := none, mapping_domain := none }

/-- A name service in which every lookup misses. -/
def nsAbsent : NsSvc :=
  { byname := fun _ _ => .absent, byid := fun _ _ => .absent }

/-- A directory client in which every lookup misses. -/
def adsvc0 : AdSvc := { name2sid := fun _ _ => (.notfound, none) }

/-- The deny rule of the priority scenario: foo@CORP → "" (w2u order 1). -/
def c4deny : NameRule :=
  { is_user := 1, windomain := some "CORP", winname := some "foo",
    is_nt4 := 0, unixname := some "", w2u_order := some 1,
    u2w_order := none }

/-- The mapping rule of the priority scenario: foo@CORP → bob
(w2u order 2). -/
def c4bob : NameRule :=
  { is_user := 1, windomain := some "CORP", winname := some "foo",
    is_nt4 := 0, unixname := some "bob", w2u_order := some 2,
    u2w_order := none }

/-- The windows→unix request for foo@CORP (uid wanted), as left by
pass 1 with the name known locally. -/
def c4req : IdmapMapping :=
  { req0 with
      id1pfx := some "S-1-5-21-7-8-9"
      id1rid := 1111
      id1name := some "foo"
      id1domain := some "CORP"
      id2idtype := .uid
      dirMask := F_S2N_CACHE }

/-- The result record entering pass 2 for the priority scenario. -/
def c4res : IdmapIdRes :=
  { res0 with idtype := .uid, pid := UID_NOBODY, retcode := .success }

/-- The wildcard fallback rule: *@CORP → * (w2u order 5). -/
def c5rule : NameRule :=
  { is_user := 1, windomain := some "CORP", winname := some "*",
    is_nt4 := 0, unixname := some "*", w2u_order := some 5,
    u2w_order := none }

/-- The windows→unix request for alice@CORP (uid wanted), as left by
pass 1 with the name known locally. -/
def c5req : IdmapMapping :=
  { c4req with id1name := some "alice" }

/-- Allocator counters with a non-exhausted uid window starting at the
bottom of the ephemeral range. -/
def adW : AdState :=
  { next_uid := 2147483648, limit_uid := 2147491840,
    next_gid := 2147483648, limit_gid := 2147491840 }

/-- An empty slot of a SID-history table of size 2 (key = htsize marks
a free slot). -/
def emptySlot2 : SidSlot := { key := 2, nxt := 2 }

/-- The ephemeral-dedup scenario request: the SID of the current batch
item. -/
def c6Req (pfx : String) (rid : Nat) : IdmapMapping :=
  { req0 with id1pfx := some pfx, id1rid := rid }

/-- The result record with which both items of the dedup scenario reach
ephemeral allocation: uid wanted, the nobody placeholder from pass 1. -/
def c6Res : IdmapIdRes :=
  { res0 with idtype := .uid, pid := UID_NOBODY }

/-- The batch state for a two-item batch whose items carry the same
SID, with an empty SID-history table sized to the batch. -/
def c6St (pfx : String) (rid x1 : Nat) : LookupState :=
  { sid2pid_done := true, pid2sid_done := true, ad_nqueries := 0,
    curpos := 0, sidHistory := some [emptySlot2, emptySlot2],
    sidHistorySize := 2, batchSids := [(pfx, rid), (pfx, rid)],
    resultPids := [0, x1] }

/-- Ephemeral allocation for item 0 of the dedup scenario. -/
def c6Step1 (pfx : String) (rid x1 : Nat) (ad : AdState) :
    Retcode × IdmapIdRes × LookupState × AdState :=
  dynamic_ephemeral_mapping (c6St pfx rid x1) ad none none
    (c6Req pfx rid) c6Res

/-- The state after item 0: its assigned id is committed into the
per-batch results array (in the C, `res` points into that array) and
the batch position advances to item 1. -/
def c6St1 (pfx : String) (rid x1 : Nat) (ad : AdState) : LookupState :=
  { (c6Step1 pfx rid x1 ad).2.2.1 with
      resultPids := [(c6Step1 pfx rid x1 ad).2.1.pid, x1]
      curpos := 1 }

/-- Ephemeral allocation for item 1 of the dedup scenario (same SID). -/
def c6Step2 (pfx : String) (rid x1 : Nat) (ad : AdState) :
    Retcode × IdmapIdRes × LookupState × AdState :=
  dynamic_ephemeral_mapping (c6St1 pfx rid x1 ad)
    (c6Step1 pfx rid x1 ad).2.2.2 none none (c6Req pfx rid) c6Res

/-- A windows→unix request for the unmapped well-known SID S-1-5-1
("Dialup"), gid wanted, no suppression flags. -/
def c2req : IdmapMapping :=
  { req0 with id1pfx := some "S-1-5", id1rid := 1, id2idtype := .gid }

/-- A unix→windows request for uid 500 with the suppress-new-allocation
flag set. -/
def c9req : IdmapMapping :=
  { req0 with
      id1pid := 500
      id1idtype := .uid
      id2idtype := .sidT
      flagNoNewAlloc := true }

/-- The windows→unix request for an unknown domain SID with the same
suppress-new-allocation flag, for the direction comparison. -/
def c9reqS : IdmapMapping :=
  { req0 with
      id1pfx := some "S-1-5-21-9-9-9"
      id1rid := 4242
      id2idtype := .uid
      flagNoNewAlloc := true }

/-- A pre-existing id-mapping cache row, used to observe that failed
resolutions leave the store untouched. -/
def c10row : CacheRow :=
  { sidpfx := "S-1-5-21-5-5-5", rid := 77, windomain := none,
    winname := none, pid := 1234, unixname := none, is_user := 1,
    w2u := some 1, u2w := some 1, expiration := some 999 }

/-- A pre-existing name-cache row for the same observation. -/
def c10nrow : NameRow :=
  { sidpfx := "S-1-5-21-5-5-5", rid := 77, name := some "w",
    domain := some "D", typ := some T_USER, expiration := some 999 }

/-- A result whose final status is a failure (an explicit deny). -/
def c10res : IdmapIdRes := { res0 with retcode := .nomapping }

/-- A cached windows→unix row with the w2u validity bit set, used by
the expired-ephemeral scenario. -/
def c7Row (p : String) (r : Nat) (wd wn un : Option String)
    (pid isU : Nat) (u2wv : Option Nat) (e : Int) : CacheRow :=
  { sidpfx := p, rid := r, windomain := wd, winname := wn, pid := pid,
    unixname := un, is_user := isU, w2u := some 1, u2w := u2wv,
    expiration := some e }

/-- The request of the expired-ephemeral witness: the cached SID, no
suppression flags. -/
def c7reqW : IdmapMapping :=
  { req0 with id1pfx := some "S-1-5-21-1-2-3", id1rid := 5000 }

/-- A non-ephemeral cached id-mapping row whose expiration equals the
sampled time of the TTL-boundary witness. -/
def c8row : CacheRow :=
  { sidpfx := "S-1-5-21-4-4-4", rid := 7, windomain := none,
    winname := none, pid := 1234, unixname := none, is_user := 1,
    w2u := some 1, u2w := some 1, expiration := some 100 }

/-- A name-cache row whose expiration is one past the sampled time of
the TTL-boundary witness. -/
def c8nrow : NameRow :=
  { sidpfx := "S-1-5-21-4-4-4", rid := 7, name := some "w",
    domain := some "D", typ := some T_USER, expiration := some 101 }

/-- C1: with the uid window exhausted (next = limit = 2^31 + 8192), the
next allocation requests a fresh block and returns its base
2147500032 — and the allocation after it returns 2147500032 again,
without touching the authority (a different grant is offered and
ignored): `get_next_eph_uid` publishes the new window with
`next_uid = base` instead of `base + 1`, so the id handed out at
rollover is reused by the following allocation, contradicting the
no-reuse property the specification states. -/
theorem c1_rollover_reuses_base :
    (get_next_eph_uid (some 2147500032)
        { next_uid := 2147491840, limit_uid := 2147491840,
          next_gid := 0, limit_gid := 0 }).1 = some 2147500032
    ∧ (get_next_eph_uid (some 2147508224)
        (get_next_eph_uid (some 2147500032)
          { next_uid := 2147491840, limit_uid := 2147491840,
            next_gid := 0, limit_gid := 0 }).2).1 = some 2147500032 := by
  decide

/-- C3 (counterexample): the rule (winname "joe", no domain,
unixname "*", direction windows→unix) is rejected with the w2u
name-rule error although it is not among the specification's listed
rejected combinations (its winname is not empty and its windomain is
not "*"), and the listed priority table assigns it no order. -/
theorem c3_counterexample :
    get_namerule_order (some "joe") none (some "*") DIR_W2U
        = (.w2uNamerule, 0, 0)
      ∧ specListedRejectedW2U "joe" none "*" = false := by
  decide

/-- A name that is EMPTY_NAME never starts with the wildcard
character, so the two classifications are disjoint. -/
theorem empty_not_wild (s : String) (h : EMPTY_NAME s = true) :
    isWild s = false := by
  have h' : s = "" ∨ s = "\"\"" := by
    simpa [EMPTY_NAME, Bool.or_eq_true, beq_iff_eq] using h
  rcases h' with h' | h' <;> subst h' <;> decide

/-- C3 (amended): `get_namerule_order` realises exactly the
specification's two priority tables with the enlarged rejected sets of
`amendedW2UOrder` and `amendedU2WOrder`: additionally rejected are, on
the windows→unix side, a non-wildcard winname mapping to unixname "*"
for every domain (not only a "*" domain), and on the unix→windows
side, any rule with a "*" windomain (also with wildcard unixname) and
a literal unixname mapping to a wildcard winname; missing names (NULL)
are rejected as well. -/
theorem c3_order_characterization (winname windomain unixname : Option String)
    (direction : Int) :
    get_namerule_order winname windomain unixname direction
      = amended_namerule_order winname windomain unixname direction := by
  by_cases dir1 : direction = DIR_U2W <;> by_cases dir2 : direction = DIR_W2U <;>
  try exact absurd (dir1.symm.trans dir2) (by decide)
  all_goals
    cases winname with
    | none =>
      cases unixname with
      | none =>
        simp [get_namerule_order, amended_namerule_order, dir1, dir2]
      | some un =>
        by_cases d : EMPTY_NAME un = true <;>
          simp [get_namerule_order, amended_namerule_order, dir1, dir2, d]
    | some wn =>
      cases unixname with
      | none =>
        simp [get_namerule_order, amended_namerule_order, dir1, dir2]
      | some un =>
        cases hb : EMPTY_NAME wn <;> cases hd : EMPTY_NAME un <;>
          cases he : domWild windomain <;>
          first
            | (have ha := empty_not_wild wn hb
               have hc := empty_not_wild un hd
               simp [get_namerule_order, amended_namerule_order, nclass,
                 amendedW2UOrder, amendedU2WOrder, dir1, dir2,
                 ha, hb, hc, hd, he])
            | (have ha := empty_not_wild wn hb
               cases hc : isWild un <;>
                 simp [get_namerule_order, amended_namerule_order, nclass,
                   amendedW2UOrder, amendedU2WOrder, dir1, dir2,
                   ha, hb, hc, hd, he])
            | (have hc := empty_not_wild un hd
               cases ha : isWild wn <;>
                 simp [get_namerule_order, amended_namerule_order, nclass,
                   amendedW2UOrder, amendedU2WOrder, dir1, dir2,
                   ha, hb, hc, hd, he])
            | (cases ha : isWild wn <;> cases hc : isWild un <;>
                 simp [get_namerule_order, amended_namerule_order, nclass,
                   amendedW2UOrder, amendedU2WOrder, dir1, dir2,
                   ha, hb, hc, hd, he])

/-- C4: with both foo@CORP → "" (w2u order 1) and foo@CORP → bob
(w2u order 2) present — stored here in the opposite order — windows→unix
rule matching for foo@CORP evaluates the candidates in ascending
priority and terminates at the deny rule with NoMapping, for every
possible state of the name service: whether bob exists is never even
consulted. -/
theorem c4_deny_rule_wins (ns : NsSvc) :
    (name_based_mapping_sid2pid [c4bob, c4deny] cfg0 ns c4req c4res).1
      = .nomapping := by
  rfl

/-- C5: with only the rule *@CORP → * present and alice absent from the
name service, windows→unix rule matching for alice@CORP exhausts its
candidates with NotFound (not NoMapping), and the second pass therefore
proceeds to ephemeral allocation: resolution succeeds with an id from
the ephemeral range (the allocator's next uid 2^31). -/
theorem c5_wildcard_falls_through_to_ephemeral :
    (name_based_mapping_sid2pid [c5rule] cfg0 nsAbsent c5req c4res).1
        = .notfound
    ∧ (sid2pid_second_pass st0 adW none none [c5rule] cfg0 nsAbsent
        c5req c4res).1 = .success
    ∧ (sid2pid_second_pass st0 adW none none [c5rule] cfg0 nsAbsent
        c5req c4res).2.2.2.2.pid = 2147483648
    ∧ IS_EPHEMERAL (sid2pid_second_pass st0 adW none none [c5rule] cfg0
        nsAbsent c5req c4res).2.2.2.2.pid = true := by
  decide

/-- C2 (counterexample): for the well-known SID S-1-5-1 ("Dialup"),
which the table marks unmapped (sentinel pid), overall resolution with
an empty cache, no rules and no suppression flags does not return
NotFound and does not skip normal resolution: pass 1 succeeds (having
resolved the display name locally) and pass 2 assigns an ephemeral gid
with final status success. -/
theorem c2_counterexample :
    ((wksidsList.find? (fun e => e.rid == 1 && strcaseEq e.pfx "S-1-5")).map
        (fun e => e.pid)) = some SENTINEL_PID
    ∧ (sid2pid_first_pass st0 [] [] 1000 c2req res0).1 = .success
    ∧ (sid2pid_second_pass (sid2pid_first_pass st0 [] [] 1000 c2req res0).2.1
        adW none none [] cfg0 nsAbsent
        (sid2pid_first_pass st0 [] [] 1000 c2req res0).2.2.1
        (sid2pid_first_pass st0 [] [] 1000 c2req res0).2.2.2).1 = .success
    ∧ IS_EPHEMERAL (sid2pid_second_pass
        (sid2pid_first_pass st0 [] [] 1000 c2req res0).2.1
        adW none none [] cfg0 nsAbsent
        (sid2pid_first_pass st0 [] [] 1000 c2req res0).2.2.1
        (sid2pid_first_pass st0 [] [] 1000 c2req res0).2.2.2).2.2.2.2.pid
      = true := by
  decide

/-- Helper for C2: when the first (rid, case-insensitive prefix) match
in the well-known table is an unmapped (sentinel) entry, the sid2pid
scan breaks out with not-found and leaves the result untouched. -/
theorem wksidScan_sentinel (p : String) (r : Nat) (idt : IdType)
    (res : IdmapIdRes) (l : List Wksid) (e0 : Wksid)
    (hfind : l.find? (fun e => e.rid == r && strcaseEq e.pfx p) = some e0)
    (hpid : e0.pid = SENTINEL_PID) :
    wksidScanS2P p r idt res l = (.notfound, res) := by
  induction l with
  | nil => simp [List.find?] at hfind
  | cons e rest ih =>
    cases h : (e.rid == r && strcaseEq e.pfx p) with
    | true =>
      simp only [List.find?, h] at hfind
      have he : e = e0 := Option.some.inj hfind
      subst he
      simp [wksidScanS2P, h, hpid]
    | false =>
      simp only [List.find?, h] at hfind
      simp only [wksidScanS2P, h, Bool.false_eq_true, if_false]
      exact ih hfind

/-- C2 (amended): a windows→unix request whose SID's first match in the
well-known table carries no fixed id gets NotFound from the well-known
lookup stage — never an id and never another error — and the first pass
then continues with normal resolution rather than skipping it: on the
concrete unmapped "Dialup" request with an empty cache and no
suppression flags, pass 1 returns success with sid2pid_done cleared
(the item stays live for rule/ephemeral processing). -/
theorem c2_unmapped_wksid_falls_through (req : IdmapMapping)
    (res : IdmapIdRes) (e0 : Wksid) (p : String)
    (hp : req.id1pfx = some p)
    (hfind : wksidsList.find?
        (fun e => e.rid == req.id1rid && strcaseEq e.pfx p) = some e0)
    (hpid : e0.pid = SENTINEL_PID) :
    lookup_wksids_sid2pid req res = (.notfound, res)
    ∧ (sid2pid_first_pass st0 [] [] 1000 c2req res0).2.1.sid2pid_done = false
    ∧ (sid2pid_first_pass st0 [] [] 1000 c2req res0).1 = .success := by
  refine ⟨?_, by decide, by decide⟩
  unfold lookup_wksids_sid2pid
  rw [hp]
  exact wksidScan_sentinel p req.id1rid req.id2idtype res wksidsList e0
    hfind hpid

/-- C2 (witness): the amended statement applied to the concrete Dialup
request. -/
theorem c2_witness :
    lookup_wksids_sid2pid c2req res0 = (.notfound, res0) :=
  (c2_unmapped_wksid_falls_through c2req res0
    { pfx := "S-1-5", rid := 1, winname := "Dialup", is_user := 0,
      pid := SENTINEL_PID, direction := -1 } "S-1-5" rfl (by decide)
    rfl).1

/-- C9 (counterexample): for uid 500 (not cached, not well-known) with
the suppress-new-allocation flag, the identifier→SID first pass
terminates with a NoMapping error and assigns no id at all — while the
SID→identifier direction under the same flag terminates with NotFound
and the sentinel "nobody" id. The two directions do not mirror each
other. -/
theorem c9_counterexample :
    (pid2sid_first_pass st0 [] [] [] cfg0 nsAbsent adsvc0 1000 c9req res0
        1 true).1 = .nomapping
    ∧ (pid2sid_first_pass st0 [] [] [] cfg0 nsAbsent adsvc0 1000 c9req res0
        1 true).2.2.2.retcode = .nomapping
    ∧ (pid2sid_first_pass st0 [] [] [] cfg0 nsAbsent adsvc0 1000 c9req res0
        1 true).2.2.2.pid = 0
    ∧ (pid2sid_first_pass st0 [] [] [] cfg0 nsAbsent adsvc0 1000 c9req res0
        1 true).2.2.2.sidpfx = none
    ∧ (sid2pid_first_pass st0 [] [] 1000 c9reqS res0).1 = .notfound
    ∧ (sid2pid_first_pass st0 [] [] 1000 c9reqS res0).2.2.2.pid
        = SENTINEL_PID := by
  decide

/-- C9 (amended): in the identifier→SID direction, when the well-known
and cache lookups find nothing, the source id is not ephemeral, and the
request carries the suppress-new-allocation or suppress-directory-lookup
flag, the request terminates with a NoMapping error and the result id
fields are left untouched — it does not mirror the SID→identifier
direction, which under the same flags ends in NotFound with the
sentinel "nobody" id. -/
theorem c9_flags_give_nomapping (st : LookupState) (cache : List CacheRow)
    (ncache : List NameRow) (rules : List NameRule) (cfg : Config)
    (ns : NsSvc) (adsvc : AdSvc) (t : Int) (req : IdmapMapping)
    (res : IdmapIdRes) (is_user : Nat) (getname : Bool)
    (hidt : req.id2idtype = .sidT)
    (hwk : wksidsList.find? (fun e =>
        e.pid == req.id1pid && e.is_user == is_user &&
        !(e.direction == DIR_W2U)) = none)
    (hcache : cache.find? (idmapCacheU2WMatch req.id1pid is_user t) = none)
    (heph : IS_EPHEMERAL req.id1pid = false)
    (hflag : req.flagNoNewAlloc = true ∨ req.flagNoNameservice = true) :
    (pid2sid_first_pass st cache ncache rules cfg ns adsvc t req res
        is_user getname).1 = .nomapping
    ∧ (pid2sid_first_pass st cache ncache rules cfg ns adsvc t req res
        is_user getname).2.2.2.retcode = .nomapping
    ∧ (pid2sid_first_pass st cache ncache rules cfg ns adsvc t req res
        is_user getname).2.2.2.pid = res.pid
    ∧ (pid2sid_first_pass st cache ncache rules cfg ns adsvc t req res
        is_user getname).2.2.2.sidpfx = res.sidpfx := by
  rcases hflag with h | h <;>
    simp [pid2sid_first_pass, lookup_wksids_pid2sid, lookup_cache_pid2sid,
      hidt, hwk, hcache, heph, h, idmap_stat4prot, F_DONE]

/-- C9 (witness): the amended statement applied to the concrete uid-500
request. -/
theorem c9_witness :
    (pid2sid_first_pass st0 [] [] [] cfg0 nsAbsent adsvc0 1000 c9req res0
        1 true).1 = .nomapping :=
  (c9_flags_give_nomapping st0 [] [] [] cfg0 nsAbsent adsvc0 1000 c9req
      res0 1 true rfl (by decide) rfl (by decide) (Or.inl rfl)).1

/-- C10: a request item whose final result status is not success leaves
both the id-mapping cache and the name cache exactly as they were, in
both resolution directions: the updaters return before building any
statement. -/
theorem c10_negative_never_cached (st : LookupState)
    (cache : List CacheRow) (ncache : List NameRow) (now : Int)
    (req : IdmapMapping) (res : IdmapIdRes)
    (h : res.retcode ≠ .success) :
    (update_cache_sid2pid st cache ncache now req res).2.2.1 = cache
    ∧ (update_cache_sid2pid st cache ncache now req res).2.2.2 = ncache
    ∧ (update_cache_pid2sid st cache ncache now req res).2.2.1 = cache
    ∧ (update_cache_pid2sid st cache ncache now req res).2.2.2 = ncache := by
  by_cases hd : (req.dirMask == F_DONE) = true <;>
    simp [update_cache_sid2pid, update_cache_pid2sid, hd, h]

/-- C8: for the row-selection predicates of the time-aware cache
lookups — the id-mapping predicate on a non-ephemeral row and the
name-cache predicate on any row — an expiration equal to the sampled
time makes the row expired (not selected), an expiration of the sampled
time plus one keeps it valid, and an expiration of 0 or an absent
expiration never expires. (The sampled time is nonzero: an expiration
equal to a zero "now" would fall under the never-expires marker.) -/
theorem c8_ttl_boundary (row : CacheRow) (nrow : NameRow) (t : Int)
    (ht : t ≠ 0) (hw : row.w2u = some 1) (hneph : row.pid < 2147483648) :
    (row.expiration = some t →
      idmapCacheW2UMatch row.sidpfx row.rid t row = false)
    ∧ (row.expiration = some (t + 1) →
      idmapCacheW2UMatch row.sidpfx row.rid t row = true)
    ∧ (row.expiration = some 0 →
      idmapCacheW2UMatch row.sidpfx row.rid t row = true)
    ∧ (row.expiration = none →
      idmapCacheW2UMatch row.sidpfx row.rid t row = true)
    ∧ (nrow.expiration = some t →
      nameCacheSidMatch nrow.sidpfx nrow.rid t nrow = false)
    ∧ (nrow.expiration = some (t + 1) →
      nameCacheSidMatch nrow.sidpfx nrow.rid t nrow = true)
    ∧ (nrow.expiration = some 0 →
      nameCacheSidMatch nrow.sidpfx nrow.rid t nrow = true)
    ∧ (nrow.expiration = none →
      nameCacheSidMatch nrow.sidpfx nrow.rid t nrow = true) := by
  have hn : ¬ (2147483648 ≤ row.pid) := by omega
  refine ⟨?_, ?_, ?_, ?_, ?_, ?_, ?_, ?_⟩ <;> intro hx <;>
    simp [idmapCacheW2UMatch, nameCacheSidMatch, cacheExpValid, hx, hw,
      ht, hn]

/-- C8 (witness): at sampled time 100, a concrete id-mapping row with
expiration 100 is not selected and a concrete name-cache row with
expiration 101 is. -/
theorem c8_witness :
    idmapCacheW2UMatch c8row.sidpfx c8row.rid 100 c8row = false
    ∧ nameCacheSidMatch c8nrow.sidpfx c8nrow.rid 100 c8nrow = true := by
  constructor
  · exact (c8_ttl_boundary c8row c8nrow 100 (by decide) rfl
      (by decide)).1 rfl
  · exact (c8_ttl_boundary c8row c8nrow 100 (by decide) rfl
      (by decide)).2.2.2.2.2.1 rfl

/-- C7: when the id-mapping cache holds a windows→unix row for the
requested SID whose id is ephemeral and whose nonzero expiration has
passed, and the request suppresses neither allocation nor the name
service, pass 1's cache lookup stashes the expired ephemeral id in the
result (typed, direction bidirectional), sets the expired-ephemeral
pending bit on the request and reports not-found; if resolution later
reaches the ephemeral step, that step returns the stashed id as is and
leaves the allocator untouched. -/
theorem c7_expired_ephemeral_stash (p : String) (r : Nat)
    (wd wn un : Option String) (pid isU : Nat) (u2wv : Option Nat)
    (e t : Int) (req : IdmapMapping) (res : IdmapIdRes)
    (st : LookupState) (ad : AdState) (authU authG : Option Nat)
    (hpid : IS_EPHEMERAL pid = true) (he0 : e ≠ 0) (hele : e ≤ t)
    (hf1 : req.flagNoNewAlloc = false) (hf2 : req.flagNoNameservice = false)
    (hreqp : req.id1pfx = some p) (hreqr : req.id1rid = r) :
    (lookup_cache_sid2pid [c7Row p r wd wn un pid isU u2wv e] t req
        res).1 = .notfound
    ∧ (lookup_cache_sid2pid [c7Row p r wd wn un pid isU u2wv e] t req
        res).2.2.pid = pid
    ∧ (lookup_cache_sid2pid [c7Row p r wd wn un pid isU u2wv e] t req
        res).2.2.dir = DIR_BI
    ∧ (lookup_cache_sid2pid [c7Row p r wd wn un pid isU u2wv e] t req
        res).2.1.dirMask = req.dirMask.lor
          (if isU == 0 then F_EXP_EPH_GID else F_EXP_EPH_UID)
    ∧ (dynamic_ephemeral_mapping st ad authU authG
        (lookup_cache_sid2pid [c7Row p r wd wn un pid isU u2wv e] t req
          res).2.1
        (lookup_cache_sid2pid [c7Row p r wd wn un pid isU u2wv e] t req
          res).2.2).1 = .success
    ∧ (dynamic_ephemeral_mapping st ad authU authG
        (lookup_cache_sid2pid [c7Row p r wd wn un pid isU u2wv e] t req
          res).2.1
        (lookup_cache_sid2pid [c7Row p r wd wn un pid isU u2wv e] t req
          res).2.2).2.1.pid = pid
    ∧ (dynamic_ephemeral_mapping st ad authU authG
        (lookup_cache_sid2pid [c7Row p r wd wn un pid isU u2wv e] t req
          res).2.1
        (lookup_cache_sid2pid [c7Row p r wd wn un pid isU u2wv e] t req
          res).2.2).2.2.2 = ad := by
  have h31 : 2147483648 ≤ pid := by
    have h' := hpid
    simp [IS_EPHEMERAL, INT32_MAX] at h'
    omega
  by_cases hu : (isU == 0) = true <;>
    simp [lookup_cache_sid2pid, c7Row, List.find?, idmapCacheW2UMatch,
      cacheExpValid, dynamic_ephemeral_mapping, hreqp, hreqr, hf1, hf2,
      he0, hele, hu, hpid, h31]

/-- C7 (witness): the stash-and-reuse behavior at a concrete expired
ephemeral cache row (id 2^31 + 2, expired at 50, sampled time 100). -/
theorem c7_witness :
    (lookup_cache_sid2pid
        [c7Row "S-1-5-21-1-2-3" 5000 none none none 2147483650 1 none 50]
        100 c7reqW res0).1 = .notfound
    ∧ (dynamic_ephemeral_mapping st0 adW none none
        (lookup_cache_sid2pid
          [c7Row "S-1-5-21-1-2-3" 5000 none none none 2147483650 1 none 50]
          100 c7reqW res0).2.1
        (lookup_cache_sid2pid
          [c7Row "S-1-5-21-1-2-3" 5000 none none none 2147483650 1 none 50]
          100 c7reqW res0).2.2).2.1.pid = 2147483650 := by
  constructor
  · exact (c7_expired_ephemeral_stash "S-1-5-21-1-2-3" 5000 none none none
      2147483650 1 none 50 100 c7reqW res0 st0 adW none none (by decide)
      (by decide) (by decide) rfl rfl rfl rfl).1
  · exact (c7_expired_ephemeral_stash "S-1-5-21-1-2-3" 5000 none none none
      2147483650 1 none 50 100 c7reqW res0 st0 adW none none (by decide)
      (by decide) (by decide) rfl rfl rfl rfl).2.2.2.2.2.1

/-- The home slot chosen by gethash is always inside the table. -/
theorem gethash_lt (s : Option String) (n htsize : Nat)
    (h : 0 < htsize) : gethash s n htsize < htsize := by
  cases s with
  | none => simpa [gethash] using h
  | some str =>
    simp only [gethash]
    exact Nat.mod_lt _ h

/-- C6: in a two-item batch whose items carry the identical
(sidprefix, rid), with the batch-scoped SID-history table empty and
sized to the batch and the allocator window not exhausted, ephemeral
allocation for the first item mints exactly one id (the allocator's
next uid) and registers it in the history, and the second item receives
the identical id from the history, consuming no allocator state. -/
theorem c6_batch_dedup (pfx : String) (rid x1 : Nat) (ad : AdState)
    (hroom : ad.next_uid < ad.limit_uid) :
    (c6Step1 pfx rid x1 ad).1 = .success
    ∧ (c6Step2 pfx rid x1 ad).1 = .success
    ∧ (c6Step2 pfx rid x1 ad).2.1.pid = (c6Step1 pfx rid x1 ad).2.1.pid
    ∧ (c6Step1 pfx rid x1 ad).2.1.pid = ad.next_uid
    ∧ (c6Step2 pfx rid x1 ad).2.2.2 = (c6Step1 pfx rid x1 ad).2.2.2 := by
  have hlt : gethash (some pfx) rid 2 < 2 :=
    gethash_lt (some pfx) rid 2 (by decide)
  have hn : ¬ (ad.limit_uid ≤ ad.next_uid) := Nat.not_le.mpr hroom
  have h01 : gethash (some pfx) rid 2 = 0 ∨ gethash (some pfx) rid 2 = 1 := by
    omega
  rcases h01 with h | h <;>
    simp [c6Step1, c6Step2, c6St1, c6St, c6Req, c6Res,
      dynamic_ephemeral_mapping, get_from_sid_history, sidHistLookup,
      add_to_sid_history, sidHistProbe, get_next_eph_uid, emptySlot2,
      h, hn, IS_EPHEMERAL, INT32_MAX, UID_NOBODY, List.set, List.get?]

/-- C6 (witness): the dedup behavior at a concrete SID and allocator
state: both items of the batch receive uid 2^31. -/
theorem c6_witness :
    (c6Step2 "S-1-5-21-1-2-3" 5000 77 adW).2.1.pid
      = (c6Step1 "S-1-5-21-1-2-3" 5000 77 adW).2.1.pid :=
  (c6_batch_dedup "S-1-5-21-1-2-3" 5000 77 adW (by decide)).2.2.1

/-- C10 (witness): a denied (NoMapping) result leaves a concrete
one-row cache pair untouched. -/
theorem c10_witness :
    (update_cache_sid2pid st0 [c10row] [c10nrow] 500 req0 c10res).2.2.1
      = [c10row] :=
  (c10_negative_never_cached st0 [c10row] [c10nrow] 500 req0 c10res
    (by decide)).1

end Idmap
